import Mathlib

/-!
Verification development for the research-software-ecosystem-utils scripts.

The repository contains three variants of a registry reconciler
(`gh2biotools.py`, `gh2biotools2.py`, `gh2biotools3.py`) that synchronise
local `.biotools.json` files with a remote bio.tools registry over HTTP,
and a one-off importer (`biocontainers-importer.py`) that splits a fetched
YAML mapping into per-tool files.

This file shallowly embeds those scripts.  JSON/YAML values are modelled by
the inductive `Json`; the network is modelled as an environment that supplies,
per file, the outcome (response or raised exception) of each HTTP request the
code can make; the processing loops become pure step functions over an
explicit state that also records Python local-variable bindings
(`payload_dict`, `response`) that the scripts' exception handlers read.
Every HTTP request the code attempts is recorded in a trace of `Call`s so
that claims about which requests are issued can be stated.
-/

set_option autoImplicit false

namespace BioTools

/-- JSON values, as produced by Python's `json.load` / `response.json()` /
`yaml.safe_load`.  Objects are association lists of string keys (Python dicts
from JSON parsing have unique keys). -/
inductive Json where
  | null
  | bool (b : Bool)
  | num (n : Int)
  | str (s : String)
  | arr (xs : List Json)
  | obj (fields : List (String × Json))
deriving Repr, Inhabited

mutual

/-- Structural equality on `Json`, the embedding of Python `==` on the parsed
values (`existing_tool == payload_dict`). -/
def Json.beq : Json → Json → Bool
  | .null, .null => true
  | .bool a, .bool b => a == b
  | .num a, .num b => a == b
  | .str a, .str b => a == b
  | .arr a, .arr b => Json.beqList a b
  | .obj a, .obj b => Json.beqObj a b
  | _, _ => false

/-- Elementwise equality of JSON arrays. -/
def Json.beqList : List Json → List Json → Bool
  | [], [] => true
  | x :: xs, y :: ys => Json.beq x y && Json.beqList xs ys
  | _, _ => false

/-- Entrywise equality of JSON objects. -/
def Json.beqObj : List (String × Json) → List (String × Json) → Bool
  | [], [] => true
  | (k, v) :: xs, (k', v') :: ys => k == k' && Json.beq v v' && Json.beqObj xs ys
  | _, _ => false

end

instance : BEq Json := ⟨Json.beq⟩

mutual

/-- The normalisation step
`remap(d, lambda p, k, v: k != 'term')` from `boltons.iterutils`:
every mapping entry whose key is literally `"term"` is dropped, recursively
throughout the tree (list items have integer keys, so they are always kept,
but their contents are normalised too). -/
def stripTerm : Json → Json
  | .null => .null
  | .bool b => .bool b
  | .num n => .num n
  | .str s => .str s
  | .arr xs => .arr (stripTermList xs)
  | .obj fs => .obj (stripTermObj fs)

/-- `stripTerm` mapped over the items of a JSON array. -/
def stripTermList : List Json → List Json
  | [] => []
  | x :: xs => stripTerm x :: stripTermList xs

/-- `stripTerm` over the entries of a JSON object: entries keyed `"term"` are
dropped, the values of all other entries are normalised recursively. -/
def stripTermObj : List (String × Json) → List (String × Json)
  | [] => []
  | (k, v) :: fs =>
    if k == "term" then stripTermObj fs
    else (k, stripTerm v) :: stripTermObj fs

end

/-- Python `dict.get(key)` on a JSON object: the first binding of `key`
(JSON-parsed dicts have unique keys), `none` when absent or when the value is
not an object. -/
def Json.lookup (j : Json) (key : String) : Option Json :=
  match j with
  | .obj fs => (fs.find? (fun kv => kv.1 == key)).map (·.2)
  | _ => none

/-- The scripts' identifier extraction:
`tool_id = payload_dict.get("biotoolsID")` followed by the truthiness test
`if not tool_id`.  `biotoolsID` values are strings in the bio.tools schema;
an absent key or an empty string is falsy, a non-empty string is truthy. -/
def toolId? (j : Json) : Option String :=
  match j.lookup "biotoolsID" with
  | some (.str s) => if s == "" then none else some s
  | _ => none

/-- An HTTP response as seen through the `requests` library: status code and
body text.  (The decoded JSON body of a 200 GET is supplied separately by the
environment, since `response.json()` can itself raise.) -/
structure HttpResponse where
  status : Nat
  text : String
deriving Repr, DecidableEq, Inhabited

/-- `requests`' `Response.ok`: true iff the status code is below 400. -/
def HttpResponse.isOk (r : HttpResponse) : Bool := r.status < 400

/-- Python exceptions relevant to the scripts.  `httpError` carries the
response attached to `requests.exceptions.HTTPError`; `requestError` is any
other `requests.exceptions.RequestException` (connection failure, timeout);
`jsonError` is a JSON/value decoding failure; `nameError` / `keyError` are
the interpreter errors the handlers themselves can raise. -/
inductive Exn where
  | httpError (resp : HttpResponse)
  | requestError (msg : String)
  | jsonError (msg : String)
  | nameError (name : String)
  | keyError (key : String)
  | other (msg : String)
deriving Repr, DecidableEq, Inhabited

/-- Python `str(e)` for the modelled exceptions. -/
def Exn.toMessage : Exn → String
  | .httpError r => r.text
  | .requestError m => m
  | .jsonError m => m
  | .nameError n => "name " ++ n ++ " is not defined"
  | .keyError k => k
  | .other m => m

/-- `except requests.exceptions.HTTPError` matches exactly `httpError`. -/
def Exn.isHTTPError : Exn → Bool
  | .httpError _ => true
  | _ => false

/-- HTTP request methods. -/
inductive Method where
  | GET
  | POST
  | PUT
  | DELETE
deriving Repr, DecidableEq

/-- One attempted HTTP request: method and target URL.  A request is recorded
in the trace when the `requests` call is made, whether it returns a response
or raises. -/
structure Call where
  method : Method
  url : String
deriving Repr, DecidableEq

/-- `HOST` from the scripts. -/
def HOST : String := "https://bio-tools-dev.sdu.dk"

/-- `TOOL_API_URL` from the scripts. -/
def TOOL_API_URL : String := HOST ++ "/api/tool/"

/-- `VALIDATE_API_URL` from `gh2biotools3.py` (also built inline in the other
variants as `f'{HOST}/api/tool/validate/'`). -/
def VALIDATE_API_URL : String := HOST ++ "/api/tool/validate/"

/-- The per-file slice of the outside world: the outcome of each I/O action
the loop body can perform on one file.  `.error e` means the corresponding
Python call raised `e`.  `scraped` is the text BeautifulSoup extraction of
`exception_value` elements would produce from `getResp`'s body (used only by
the 500-page scraping in the `HTTPError` handler; the library's HTML parsing
is treated as part of the environment). -/
structure FileEnv where
  /-- Outcome of `json.load(open(biotools_json_file))`. -/
  localJson : Except Exn Json
  /-- Outcome of `requests.get(tool_url, ...)`. -/
  getResp : Except Exn HttpResponse
  /-- Outcome of `response.json()` on the GET response (used on 200). -/
  getBody : Except Exn Json
  /-- Outcome of the creation-validation request
  (POST `/api/tool/validate/`). -/
  valResp : Except Exn HttpResponse
  /-- Outcome of the update-validation request of `gh2biotools2.py`
  (PUT `/api/tool/{id}/validate/`). -/
  valUpdResp : Except Exn HttpResponse
  /-- Outcome of the update request (PUT `/api/tool/{id}/`). -/
  putResp : Except Exn HttpResponse
  /-- Outcome of the creation request (POST `/api/tool/`). -/
  postResp : Except Exn HttpResponse
  /-- BeautifulSoup scrape of the `exception_value` elements of the last
  response body (consulted by the handlers when the status is 500). -/
  scraped : String
deriving Repr

/-- Result of running a loop body (or a whole loop): either the mutable
state after normal completion, or the exception that escaped it and aborts
the surrounding function. -/
inductive LoopResult (σ : Type) where
  | done (s : σ)
  | abort (e : Exn)
deriving Repr

namespace V3

/-- The mutable state of `run_upload` in `gh2biotools3.py`: the three result
lists plus the Python locals `payload_dict` and `response`, which persist
across loop iterations and are read by the `except` handlers.  `ko` entries
pair the recorded id value (the handlers append an arbitrary looked-up value,
hence `Json`) with the error message. -/
structure St where
  ok : List String
  ko : List (Json × String)
  unchanged : List String
  lastPayload : Option Json
  lastResp : Option HttpResponse
deriving Repr

/-- The initial `run_upload` state: three empty lists, no locals bound yet. -/
def St.init : St := ⟨[], [], [], none, none⟩

/-- The `except` clauses of `run_upload` in `gh2biotools3.py`.
`except requests.exceptions.HTTPError` builds `messages` from `response`
(scraping the 500 page, else the body) and appends
`(payload_dict["biotoolsID"], messages)`; `except Exception as e` appends
`(payload_dict["biotoolsID"], str(e))`.  Reading `response` or
`payload_dict` when unbound raises `NameError`, and the subscript raises
`KeyError` when the key is absent; an exception raised inside a handler is
not caught and aborts `run_upload`. -/
def handle (env : FileEnv) (s : St) (e : Exn) : LoopResult St :=
  if e.isHTTPError then
    match s.lastResp with
    | none => .abort (.nameError "response")
    | some r =>
      let messages := if r.status == 500 then env.scraped else r.text
      match s.lastPayload with
      | none => .abort (.nameError "payload_dict")
      | some p =>
        match p.lookup "biotoolsID" with
        | none => .abort (.keyError "biotoolsID")
        | some v => .done { s with ko := s.ko ++ [(v, messages)] }
  else
    match s.lastPayload with
    | none => .abort (.nameError "payload_dict")
    | some p =>
      match p.lookup "biotoolsID" with
      | none => .abort (.keyError "biotoolsID")
      | some v => .done { s with ko := s.ko ++ [(v, e.toMessage)] }

/-- `update_tool` from `gh2biotools3.py`: one PUT to
`TOOL_API_URL + biotoolsID + '/'`; any received response yields
`(True, response.text)` (the `except HTTPError` branch is unreachable for a
plain `requests.put`, which never raises `HTTPError` by itself, but is
embedded faithfully); a raised `HTTPError` yields `(False, e.response.text)`,
any other `RequestException` yields `(False, str(e))`, and other exceptions
propagate. -/
def update_tool (tid : String) (env : FileEnv) :
    List Call × Except Exn (Bool × String) :=
  ([⟨.PUT, TOOL_API_URL ++ tid ++ "/"⟩],
   match env.putResp with
   | .ok r => .ok (true, r.text)
   | .error (.httpError r) => .ok (false, r.text)
   | .error (.requestError m) => .ok (false, m)
   | .error e => .error e)

/-- `upload_tool` from `gh2biotools3.py`: one POST to `TOOL_API_URL`; same
result shape as `update_tool`. -/
def upload_tool (_tid : String) (env : FileEnv) :
    List Call × Except Exn (Bool × String) :=
  ([⟨.POST, TOOL_API_URL⟩],
   match env.postResp with
   | .ok r => .ok (true, r.text)
   | .error (.httpError r) => .ok (false, r.text)
   | .error (.requestError m) => .ok (false, m)
   | .error e => .error e)

/-- `validate_tool` from `gh2biotools3.py`: one POST to the validation
endpoint, returning `(r.ok, r.text)`; it has no `try`, so a raised exception
propagates to `run_upload`'s handlers. -/
def validate_tool (env : FileEnv) :
    List Call × Except Exn (Bool × String) :=
  ([⟨.POST, VALIDATE_API_URL⟩],
   match env.valResp with
   | .ok r => .ok (r.isOk, r.text)
   | .error e => .error e)

/-- One iteration of the `run_upload` loop of `gh2biotools3.py` on one file,
given the file's environment and the current state.  Returns the HTTP
requests attempted during the iteration and the resulting state (or the
exception aborting the whole run). -/
def step (env : FileEnv) (s : St) : List Call × LoopResult St :=
  match env.localJson with
  | .error e => ([], handle env s e)
  | .ok raw =>
    let payload := stripTerm raw
    let s := { s with lastPayload := some payload }
    match toolId? payload with
    | none =>
      ([], .done { s with ko := s.ko ++ [(.str "UNKNOWN", "biotoolsID not found")] })
    | some tid =>
      let toolUrl := HOST ++ "/api/tool/" ++ tid ++ "/"
      let getCall : Call := ⟨.GET, toolUrl⟩
      match env.getResp with
      | .error e => ([getCall], handle env s e)
      | .ok resp =>
        let s := { s with lastResp := some resp }
        if resp.status == 200 then
          match env.getBody with
          | .error e => ([getCall], handle env s e)
          | .ok body =>
            let existing := stripTerm body
            if Json.beq existing payload then
              ([getCall], .done { s with unchanged := s.unchanged ++ [tid] })
            else
              let (putCalls, res) := update_tool tid env
              match res with
              | .ok (true, _) =>
                (getCall :: putCalls, .done { s with ok := s.ok ++ [tid] })
              | .ok (false, message) =>
                (getCall :: putCalls,
                 .done { s with ko := s.ko ++ [(.str tid, message)] })
              | .error e => (getCall :: putCalls, handle env s e)
        else if resp.status == 404 then
          let (valCalls, vres) := validate_tool env
          match vres with
          | .error e => (getCall :: valCalls, handle env s e)
          | .ok (true, _) =>
            let (postCalls, ures) := upload_tool tid env
            match ures with
            | .ok (true, _) =>
              (getCall :: valCalls ++ postCalls, .done { s with ok := s.ok ++ [tid] })
            | .ok (false, message) =>
              (getCall :: valCalls ++ postCalls,
               .done { s with ko := s.ko ++ [(.str tid, message)] })
            | .error e => (getCall :: valCalls ++ postCalls, handle env s e)
          | .ok (false, message) =>
            (getCall :: valCalls,
             .done { s with ko := s.ko ++ [(.str tid, message)] })
        else
          ([getCall], .done { s with ko := s.ko ++ [(.str tid, resp.text)] })

/-- The full `run_upload` loop of `gh2biotools3.py`: files processed in
order, each completed iteration feeding its state to the next; an exception
escaping a handler aborts the remaining files. -/
def run_upload (envs : List FileEnv) (s : St) : List Call × LoopResult St :=
  match envs with
  | [] => ([], .done s)
  | env :: rest =>
    match step env s with
    | (calls, .done s') =>
      let (calls', r) := run_upload rest s'
      (calls ++ calls', r)
    | (calls, .abort e) => (calls, .abort e)

end V3

namespace V2

/-- The mutable state of `run_upload` in `gh2biotools2.py`: as in the third
variant, but `tools_ko` holds bare id values (no messages are recorded). -/
structure St where
  ok : List String
  ko : List Json
  unchanged : List String
  lastPayload : Option Json
  lastResp : Option HttpResponse
deriving Repr

/-- The initial `run_upload` state of `gh2biotools2.py`. -/
def St.init : St := ⟨[], [], [], none, none⟩

/-- The `except` clauses of `run_upload` in `gh2biotools2.py`: both append
`payload_dict.get("biotoolsID", "UNKNOWN")` (so a record without the key
yields `"UNKNOWN"` rather than a `KeyError`), but reading `payload_dict` or
`response` when unbound still raises `NameError`, which escapes the handler
and aborts `run_upload`. -/
def handle (s : St) (e : Exn) : LoopResult St :=
  if e.isHTTPError then
    match s.lastResp with
    | none => .abort (.nameError "response")
    | some _ =>
      match s.lastPayload with
      | none => .abort (.nameError "payload_dict")
      | some p =>
        .done { s with ko := s.ko ++ [(p.lookup "biotoolsID").getD (.str "UNKNOWN")] }
  else
    match s.lastPayload with
    | none => .abort (.nameError "payload_dict")
    | some p =>
      .done { s with ko := s.ko ++ [(p.lookup "biotoolsID").getD (.str "UNKNOWN")] }

/-- `validate_update_tool` from `gh2biotools2.py`: one PUT to
`/api/tool/{id}/validate/` returning `(response.ok, response.text)`;
exceptions propagate. -/
def validate_update_tool (tid : String) (env : FileEnv) :
    List Call × Except Exn (Bool × String) :=
  ([⟨.PUT, HOST ++ "/api/tool/" ++ tid ++ "/validate/"⟩],
   match env.valUpdResp with
   | .ok r => .ok (r.isOk, r.text)
   | .error e => .error e)

/-- `validate_upload_tool` from `gh2biotools2.py`: one POST to
`/api/tool/validate/` returning `(response.ok, response.text)`; exceptions
propagate. -/
def validate_upload_tool (env : FileEnv) :
    List Call × Except Exn (Bool × String) :=
  ([⟨.POST, VALIDATE_API_URL⟩],
   match env.valResp with
   | .ok r => .ok (r.isOk, r.text)
   | .error e => .error e)

/-- `update_tool` from `gh2biotools2.py`: one PUT to the tool URL; any
received response yields `(True, response.text)`; a raised
`RequestException` — which includes `HTTPError` — yields `(False, str(e))`;
other exceptions propagate. -/
def update_tool (tid : String) (env : FileEnv) :
    List Call × Except Exn (Bool × String) :=
  ([⟨.PUT, TOOL_API_URL ++ tid ++ "/"⟩],
   match env.putResp with
   | .ok r => .ok (true, r.text)
   | .error (.httpError r) => .ok (false, (Exn.httpError r).toMessage)
   | .error (.requestError m) => .ok (false, m)
   | .error e => .error e)

/-- `upload_tool` from `gh2biotools2.py`: one POST to the tool URL; same
result shape as its `update_tool`. -/
def upload_tool (env : FileEnv) :
    List Call × Except Exn (Bool × String) :=
  ([⟨.POST, TOOL_API_URL⟩],
   match env.postResp with
   | .ok r => .ok (true, r.text)
   | .error (.httpError r) => .ok (false, (Exn.httpError r).toMessage)
   | .error (.requestError m) => .ok (false, m)
   | .error e => .error e)

/-- One iteration of the `run_upload` loop of `gh2biotools2.py`. -/
def step (env : FileEnv) (s : St) : List Call × LoopResult St :=
  match env.localJson with
  | .error e => ([], handle s e)
  | .ok raw =>
    let payload := stripTerm raw
    let s := { s with lastPayload := some payload }
    match toolId? payload with
    | none => ([], .done { s with ko := s.ko ++ [.str "UNKNOWN"] })
    | some tid =>
      let getCall : Call := ⟨.GET, HOST ++ "/api/tool/" ++ tid ++ "/"⟩
      match env.getResp with
      | .error e => ([getCall], handle s e)
      | .ok resp =>
        let s := { s with lastResp := some resp }
        if resp.status == 200 then
          match env.getBody with
          | .error e => ([getCall], handle s e)
          | .ok body =>
            if Json.beq (stripTerm body) payload then
              ([getCall], .done { s with unchanged := s.unchanged ++ [tid] })
            else
              let (vCalls, vres) := validate_update_tool tid env
              match vres with
              | .error e => (getCall :: vCalls, handle s e)
              | .ok (true, _) =>
                let (uCalls, ures) := update_tool tid env
                match ures with
                | .ok (true, _) =>
                  (getCall :: vCalls ++ uCalls, .done { s with ok := s.ok ++ [tid] })
                | .ok (false, _) =>
                  (getCall :: vCalls ++ uCalls,
                   .done { s with ko := s.ko ++ [.str tid] })
                | .error e => (getCall :: vCalls ++ uCalls, handle s e)
              | .ok (false, _) =>
                (getCall :: vCalls, .done { s with ko := s.ko ++ [.str tid] })
        else if resp.status == 404 then
          let (vCalls, vres) := validate_upload_tool env
          match vres with
          | .error e => (getCall :: vCalls, handle s e)
          | .ok (true, _) =>
            let (pCalls, ures) := upload_tool env
            match ures with
            | .ok (true, _) =>
              (getCall :: vCalls ++ pCalls, .done { s with ok := s.ok ++ [tid] })
            | .ok (false, _) =>
              (getCall :: vCalls ++ pCalls,
               .done { s with ko := s.ko ++ [.str tid] })
            | .error e => (getCall :: vCalls ++ pCalls, handle s e)
          | .ok (false, _) =>
            (getCall :: vCalls, .done { s with ko := s.ko ++ [.str tid] })
        else
          ([getCall], .done { s with ko := s.ko ++ [.str tid] })

/-- The `run_upload` loop of `gh2biotools2.py` over the whole file list. -/
def loop (envs : List FileEnv) (s : St) : List Call × LoopResult St :=
  match envs with
  | [] => ([], .done s)
  | env :: rest =>
    match step env s with
    | (calls, .done s') =>
      let (calls', r) := loop rest s'
      (calls ++ calls', r)
    | (calls, .abort e) => (calls, .abort e)

/-- How `run_upload` of `gh2biotools2.py` terminates: after the loop and the
summary logging it executes `if tools_ko: sys.exit(1)`.  `exited` is true
when `sys.exit(1)` was reached (`SystemExit` propagates to the top level and
ends the process with code 1, skipping everything after the call site). -/
structure UploadOutcome where
  finalState : St
  exited : Bool
deriving Repr

/-- `run_upload` from `gh2biotools2.py`: the loop, then exit-on-failures. -/
def run_upload (envs : List FileEnv) : List Call × LoopResult UploadOutcome :=
  match loop envs St.init with
  | (calls, .done s) => (calls, .done ⟨s, !s.ko.isEmpty⟩)
  | (calls, .abort e) => (calls, .abort e)

end V2

/-- Classification a `delete_tool` call logs for a received response:
`logging.info` on 204, `logging.warning` on 404, `logging.error` otherwise.
The function only logs — it has no access to any result list. -/
inductive DeleteLog where
  | deletedOk
  | notFoundWarning
  | failedError
deriving Repr, DecidableEq

/-- `delete_tool` (identical behaviour in `gh2biotools2.py` and
`gh2biotools3.py`): one DELETE to `TOOL_API_URL + biotools_id + '/'`, then a
log classified by status code; a raised exception propagates to the caller. -/
def delete_tool (biotools_id : String) (resp : Except Exn HttpResponse) :
    List Call × Except Exn DeleteLog :=
  ([⟨.DELETE, TOOL_API_URL ++ biotools_id ++ "/"⟩],
   match resp with
   | .error e => .error e
   | .ok r =>
     .ok (if r.status == 204 then .deletedOk
          else if r.status == 404 then .notFoundWarning
          else .failedError))

/-- `os.path.basename(deleted_file).split('.')[0]`: the id both `__main__`
blocks derive from a deleted file path. -/
def idFromPath (p : String) : String :=
  (((p.splitOn "/").getLastD "").splitOn ".").headD ""

/-- How the process ends: a plain exit code, or an uncaught exception
(Python prints a traceback and exits with code 1). -/
inductive ExitOutcome where
  | code (n : Nat)
  | uncaught (e : Exn)
deriving Repr, DecidableEq

/-- Whether the process exit status is non-zero. -/
def ExitOutcome.isNonzero : ExitOutcome → Bool
  | .code n => n != 0
  | .uncaught _ => true

/-- The deletion loop shared by both `__main__` blocks: each path yields one
`delete_tool` call; logs are collected; the first exception aborts. -/
def runDeletes (deletes : List (String × Except Exn HttpResponse)) :
    Except Exn (List DeleteLog) :=
  match deletes with
  | [] => .ok []
  | (p, resp) :: rest =>
    match (delete_tool (idFromPath p) resp).2 with
    | .error e => .error e
    | .ok log =>
      match runDeletes rest with
      | .error e => .error e
      | .ok logs => .ok (log :: logs)

namespace V2

/-- The `__main__` block of `gh2biotools2.py`: run `run_upload` when files
were passed (`sys.exit(1)` inside it ends the process with code 1 before any
deletion), then run the deletion loop, then fall off the end (exit code 0).
Returns the exit outcome and, when `run_upload` completed its loop, the
final result lists it logged. -/
def main (files : List FileEnv)
    (deletes : List (String × Except Exn HttpResponse)) :
    ExitOutcome × Option St :=
  if files.isEmpty then
    match runDeletes deletes with
    | .error e => (.uncaught e, none)
    | .ok _ => (.code 0, none)
  else
    match run_upload files with
    | (_, .abort e) => (.uncaught e, none)
    | (_, .done out) =>
      if out.exited then (.code 1, some out.finalState)
      else
        match runDeletes deletes with
        | .error e => (.uncaught e, some out.finalState)
        | .ok _ => (.code 0, some out.finalState)

end V2

namespace V3

/-- The `__main__` block of `gh2biotools3.py`: run `run_upload` when files
were passed, run the deletion loop, then evaluate `if tools_ko:` — but
`tools_ko` is a local variable of `run_upload`, never returned and never
declared global, so the name is unbound at module scope and the line raises
`NameError`, which is uncaught.  The report file is written only inside that
`if` block, so `reportWritten` records whether the write was reached. -/
structure MainResult where
  outcome : ExitOutcome
  reportWritten : Bool
deriving Repr

/-- The `__main__` block of `gh2biotools3.py` (see `MainResult`). -/
def main (files : List FileEnv)
    (deletes : List (String × Except Exn HttpResponse)) : MainResult :=
  let afterUpload : Except Exn Unit :=
    if files.isEmpty then .ok ()
    else
      match run_upload files St.init with
      | (_, .abort e) => .error e
      | (_, .done _) => .ok ()
  match afterUpload with
  | .error e => ⟨.uncaught e, false⟩
  | .ok _ =>
    match runDeletes deletes with
    | .error e => ⟨.uncaught e, false⟩
    | .ok _ => ⟨.uncaught (.nameError "tools_ko"), false⟩

end V3

namespace Importer

/-- A snapshot of the output file tree.  Paths are lists of components (the
code builds `f'{content_data_path}/{key}/{key}.biocontainers.yaml'`, i.e. the
components `[content_data_path, key, key ++ ".biocontainers.yaml"]`).  A file
maps a path to the YAML document written there (`yaml.dump(value)` serialises
exactly `value`, so the document is modelled by the value itself); `dirs`
holds the directories that exist. -/
structure FS where
  files : List (List String × Json)
  dirs : List (List String)
deriving Repr

/-- The content currently stored at a path, if any. -/
def FS.read (fs : FS) (path : List String) : Option Json :=
  (fs.files.find? (fun kv => kv.1 == path)).map (·.2)

/-- `open(path, "w")` followed by a full dump: replaces whatever was at
`path` with the new document. -/
def fsWrite (fs : FS) (path : List String) (content : Json) : FS :=
  { fs with files := (path, content) :: fs.files.filter (fun kv => kv.1 != path) }

/-- `os.makedirs(d, exist_ok=True)`: creates `d` and every intermediate
directory on the way (every non-empty prefix of the component list). -/
def mkdirs (fs : FS) (d : List String) : FS :=
  { fs with dirs := (List.range d.length).map (fun i => d.take (i + 1)) ++ fs.dirs }

/-- The target path
`f'{content_data_path}/{key}/{key}.biocontainers.yaml'` as components. -/
def annotPath (dir key : String) : List String :=
  [dir, key, key ++ ".biocontainers.yaml"]

/-- The loop body of `import_biocontainers_annotations` over the entries of
the parsed mapping: for each `(key, value)`, make the directories for
`os.path.dirname(tool_annotation_yaml)` (= `[dir, key]`) and write the
dumped `value` at `annotPath dir key`. -/
def importLoop (dir : String) (annots : List (String × Json)) (fs : FS) : FS :=
  match annots with
  | [] => fs
  | (key, value) :: rest =>
    importLoop dir rest (fsWrite (mkdirs fs [dir, key]) (annotPath dir key) value)

/-- `import_biocontainers_annotations` from `biocontainers-importer.py`,
after the fetch and `yaml.safe_load` succeeded: `annots` is the parsed
mapping (`annotations.items()`, unique keys since it is a dict), `dir` is
`content_data_path`, and `fs` the file tree the process starts from. -/
def import_biocontainers_annots (annots : List (String × Json)) (dir : String)
    (fs : FS) : FS :=
  importLoop dir annots fs

end Importer

/-! Concrete sample inputs used by witnesses and counterexample evaluations. -/

/-- A local record: id `toolA`, with a nested `term` key. -/
def recA : Json :=
  .obj [("biotoolsID", .str "toolA"), ("description", .str "new"),
        ("topic", .obj [("term", .str "x"), ("uri", .str "u")])]

/-- A remote copy of `recA` differing only in the nested `term` value, so the
two are equal after normalisation. -/
def recARemote : Json :=
  .obj [("biotoolsID", .str "toolA"), ("description", .str "new"),
        ("topic", .obj [("term", .str "y"), ("uri", .str "u")])]

/-- A remote record genuinely different from `recA` after normalisation. -/
def recB : Json :=
  .obj [("biotoolsID", .str "toolA"), ("description", .str "old")]

/-- A default environment in which every request succeeds blandly. -/
def baseEnv : FileEnv :=
  { localJson := .ok recA, getResp := .ok ⟨200, ""⟩, getBody := .ok recA,
    valResp := .ok ⟨200, ""⟩, valUpdResp := .ok ⟨200, ""⟩,
    putResp := .ok ⟨200, ""⟩, postResp := .ok ⟨200, ""⟩, scraped := "" }

/-- Environment: remote copy equals the local record after `term`-stripping. -/
def envUnchanged : FileEnv :=
  { baseEnv with
    localJson := .ok recA
    getResp := .ok ⟨200, "body"⟩
    getBody := .ok recARemote }

/-- Environment: the local file parses to a record without a `biotoolsID`. -/
def envNoId : FileEnv :=
  { baseEnv with localJson := .ok (.obj [("name", .str "nameless")]) }

/-- Environment: tool absent remotely (404), validation passes, POST works. -/
def envNew : FileEnv :=
  { baseEnv with
    getResp := .ok ⟨404, "not found"⟩
    valResp := .ok ⟨200, "valid"⟩
    postResp := .ok ⟨201, "created"⟩ }

/-- Environment: tool absent remotely (404), validation rejects. -/
def envNewInvalid : FileEnv :=
  { baseEnv with
    getResp := .ok ⟨404, "not found"⟩
    valResp := .ok ⟨400, "schema violation"⟩ }

/-- Environment: remote record differs, and the PUT is answered with a 400
error status. -/
def envChangedPut400 : FileEnv :=
  { baseEnv with
    getResp := .ok ⟨200, "body"⟩
    getBody := .ok recB
    valUpdResp := .ok ⟨200, "valid"⟩
    putResp := .ok ⟨400, "bad request"⟩ }

/-- Environment: the local file is malformed, `json.load` raises. -/
def envBadJson : FileEnv :=
  { baseEnv with localJson := .error (.jsonError "Expecting value") }

/-- The spec scenario mapping for the importer:
`toolA` mapsto `name: A`, `toolB` mapsto `name: B`. -/
def annotsEx : List (String × Json) :=
  [("toolA", .obj [("name", .str "A")]), ("toolB", .obj [("name", .str "B")])]

/-- An initial file tree that already holds a stale file at `toolA`'s target
path, to exhibit overwriting. -/
def fsStale : Importer.FS :=
  ⟨[(Importer.annotPath "out" "toolA", .str "stale")], []⟩

end BioTools

namespace BioTools.Importer

/-! Helper lemmas about the importer's file-tree operations. -/

/-- `find?` for a key distinct from `p` is unaffected by dropping the
entries keyed `p`. -/
theorem find?_filter_ne (l : List (List String × Json)) (p q : List String)
    (h : p ≠ q) :
    (l.filter (fun kv => kv.1 != p)).find? (fun kv => kv.1 == q) =
      l.find? (fun kv => kv.1 == q) := by
  induction l with
  | nil => rfl
  | cons a t ih =>
    by_cases hp : a.1 = p
    · have hq : (a.1 == q) = false := by
        simp only [hp, beq_eq_false_iff_ne]
        exact h
      have hbp : (a.1 != p) = false := by simp [hp]
      simp [List.filter_cons, hbp, List.find?_cons, hq, ih]
    · have hbp : (a.1 != p) = true := by simp [hp]
      by_cases hq : a.1 = q
      · simp [List.filter_cons, hbp, List.find?_cons, hq, Ne.symm h]
      · simp [List.filter_cons, hbp, List.find?_cons, hq, ih]

/-- Reading back the path just written yields the new content. -/
theorem read_fsWrite_self (fs : FS) (p : List String) (c : Json) :
    (fsWrite fs p c).read p = some c := by
  simp [fsWrite, FS.read, List.find?_cons]

/-- Writing one path leaves every other path's content unchanged. -/
theorem read_fsWrite_ne (fs : FS) (p q : List String) (c : Json) (h : p ≠ q) :
    (fsWrite fs p c).read q = fs.read q := by
  simp [fsWrite, FS.read, List.find?_cons, show (p == q) = false by simp [h],
    find?_filter_ne fs.files p q h]

/-- Creating directories does not change any file content. -/
theorem read_mkdirs (fs : FS) (d : List String) (q : List String) :
    (mkdirs fs d).read q = fs.read q := rfl

/-- Writing a file does not change the directory set. -/
theorem dirs_fsWrite (fs : FS) (p : List String) (c : Json) :
    (fsWrite fs p c).dirs = fs.dirs := rfl

/-- `mkdirs` on a two-component directory creates it (and its parent). -/
theorem mem_dirs_mkdirs_pair (fs : FS) (a b : String) :
    [a, b] ∈ (mkdirs fs [a, b]).dirs := by
  simp [mkdirs, List.range_succ]

/-- Directories persist through the rest of the import loop. -/
theorem importLoop_dirs_mono (dir : String) (annots : List (String × Json))
    (fs : FS) (d : List String) (h : d ∈ fs.dirs) :
    d ∈ (importLoop dir annots fs).dirs := by
  induction annots generalizing fs with
  | nil => exact h
  | cons kv t ih =>
    exact ih _ (by simp [fsWrite, mkdirs, h])

/-- Two distinct keys target distinct paths. -/
theorem annotPath_ne (dir k k' : String) (h : k ≠ k') :
    annotPath dir k ≠ annotPath dir k' := by
  intro he
  simp only [annotPath, List.cons.injEq, and_true] at he
  exact h he.2.1

/-- Entries for other keys do not disturb the file at `annotPath dir k`. -/
theorem importLoop_read_of_not_mem (dir : String)
    (annots : List (String × Json)) (fs : FS) (k : String)
    (h : k ∉ annots.map Prod.fst) :
    (importLoop dir annots fs).read (annotPath dir k) =
      fs.read (annotPath dir k) := by
  induction annots generalizing fs with
  | nil => rfl
  | cons kv t ih =>
    simp only [List.map_cons, List.mem_cons, not_or] at h
    have hne : annotPath dir kv.1 ≠ annotPath dir k :=
      annotPath_ne dir kv.1 k (fun hh => h.1 hh.symm)
    calc (importLoop dir (kv :: t) fs).read (annotPath dir k)
        = (fsWrite (mkdirs fs [dir, kv.1]) (annotPath dir kv.1) kv.2).read
            (annotPath dir k) := by
          simp only [importLoop]
          exact ih _ h.2
      _ = fs.read (annotPath dir k) := by
          rw [read_fsWrite_ne _ _ _ _ hne, read_mkdirs]

end BioTools.Importer

namespace BioTools

/-- C8: for every entry `(key, value)` of the mapping parsed from the fetched
YAML body, the importer ends with a standalone document equal to `value`
stored at `content_data_path/key/key.biocontainers.yaml` (the concrete form
of `output_dir/tool-id/tool-id.annotations.ext`), the entry's directory
created, whatever file previously sat at that path overwritten. -/
theorem importer_writes_every_entry (annots : List (String × Json))
    (dir : String) (fs0 : Importer.FS) (k : String) (v : Json)
    (hnodup : (annots.map Prod.fst).Nodup) (hmem : (k, v) ∈ annots) :
    (Importer.import_biocontainers_annots annots dir fs0).read
        (Importer.annotPath dir k) = some v ∧
    [dir, k] ∈ (Importer.import_biocontainers_annots annots dir fs0).dirs := by
  induction annots generalizing fs0 with
  | nil => cases hmem
  | cons kv t ih =>
    simp only [List.map_cons, List.nodup_cons] at hnodup
    rcases List.mem_cons.mp hmem with hhead | htail
    · subst hhead
      constructor
      · show (Importer.importLoop dir _ _).read _ = _
        simp only [Importer.importLoop]
        rw [Importer.importLoop_read_of_not_mem dir t _ k hnodup.1,
          Importer.read_fsWrite_self]
      · show [dir, k] ∈ (Importer.importLoop dir _ _).dirs
        simp only [Importer.importLoop]
        exact Importer.importLoop_dirs_mono dir t _ [dir, k]
          (by rw [Importer.dirs_fsWrite]
              exact Importer.mem_dirs_mkdirs_pair _ dir k)
    · show ((Importer.import_biocontainers_annots t dir _).read _ = _) ∧ _
      exact ih _ hnodup.2 htail

/-- C1: when the normalised local record equals the normalised remote record
(GET returned 200), both reconciler variants classify the file as unchanged,
append it to no other bucket, and the iteration's only request is the GET —
no PUT and no POST is issued. -/
theorem unchanged_record_no_mutating_call (env : FileEnv) (s3 : V3.St)
    (s2 : V2.St) (raw body : Json) (tid : String) (resp : HttpResponse)
    (hl : env.localJson = .ok raw)
    (hid : toolId? (stripTerm raw) = some tid)
    (hg : env.getResp = .ok resp) (h200 : resp.status = 200)
    (hb : env.getBody = .ok body)
    (heq : Json.beq (stripTerm body) (stripTerm raw) = true) :
    V3.step env s3 = ([⟨.GET, HOST ++ "/api/tool/" ++ tid ++ "/"⟩],
      .done ⟨s3.ok, s3.ko, s3.unchanged ++ [tid], some (stripTerm raw), some resp⟩) ∧
    V2.step env s2 = ([⟨.GET, HOST ++ "/api/tool/" ++ tid ++ "/"⟩],
      .done ⟨s2.ok, s2.ko, s2.unchanged ++ [tid], some (stripTerm raw), some resp⟩) ∧
    (∀ c ∈ (V3.step env s3).1, c.method ≠ .PUT ∧ c.method ≠ .POST) ∧
    (∀ c ∈ (V2.step env s2).1, c.method ≠ .PUT ∧ c.method ≠ .POST) := by
  have e3 : V3.step env s3 = ([⟨.GET, HOST ++ "/api/tool/" ++ tid ++ "/"⟩],
      .done ⟨s3.ok, s3.ko, s3.unchanged ++ [tid], some (stripTerm raw), some resp⟩) := by
    simp [V3.step, hl, hid, hg, h200, hb, heq]
  have e2 : V2.step env s2 = ([⟨.GET, HOST ++ "/api/tool/" ++ tid ++ "/"⟩],
      .done ⟨s2.ok, s2.ko, s2.unchanged ++ [tid], some (stripTerm raw), some resp⟩) := by
    simp [V2.step, hl, hid, hg, h200, hb, heq]
  refine ⟨e3, e2, ?_, ?_⟩
  · rw [e3]; simp
  · rw [e2]; simp

/-- Witness for C1: a record whose remote copy differs only under a `term`
key is classified unchanged by `gh2biotools3.py`, and the only request of
the iteration is the GET. -/
theorem unchanged_record_no_mutating_call_witness :
    V3.step envUnchanged V3.St.init =
      ([⟨.GET, HOST ++ "/api/tool/" ++ "toolA" ++ "/"⟩],
       .done ⟨[], [], [] ++ ["toolA"], some (stripTerm recA), some ⟨200, "body"⟩⟩) ∧
    (∀ c ∈ (V3.step envUnchanged V3.St.init).1,
      c.method ≠ .PUT ∧ c.method ≠ .POST) :=
  have h := unchanged_record_no_mutating_call envUnchanged V3.St.init V2.St.init
    recA recARemote "toolA" ⟨200, "body"⟩ rfl rfl rfl rfl rfl rfl
  ⟨h.1, h.2.2.1⟩

/-- C3: a parsed record with an absent (or empty) `biotoolsID` is recorded as
a missing-identifier failure in both variants, with an empty request trace —
no network call is made for that file. -/
theorem missing_id_failure_no_network_call (env : FileEnv) (s3 : V3.St)
    (s2 : V2.St) (raw : Json) (hl : env.localJson = .ok raw)
    (hid : toolId? (stripTerm raw) = none) :
    V3.step env s3 = ([],
      .done ⟨s3.ok, s3.ko ++ [(.str "UNKNOWN", "biotoolsID not found")],
             s3.unchanged, some (stripTerm raw), s3.lastResp⟩) ∧
    V2.step env s2 = ([],
      .done ⟨s2.ok, s2.ko ++ [.str "UNKNOWN"], s2.unchanged,
             some (stripTerm raw), s2.lastResp⟩) := by
  constructor
  · simp [V3.step, hl, hid]
  · simp [V2.step, hl, hid]

/-- Witness for C3: a record with no `biotoolsID` at all. -/
theorem missing_id_failure_no_network_call_witness :
    V3.step envNoId V3.St.init = ([],
      .done ⟨[], [] ++ [(.str "UNKNOWN", "biotoolsID not found")], [],
             some (stripTerm (.obj [("name", .str "nameless")])), none⟩) ∧
    V2.step envNoId V2.St.init = ([],
      .done ⟨[], [] ++ [.str "UNKNOWN"], [],
             some (stripTerm (.obj [("name", .str "nameless")])), none⟩) :=
  missing_id_failure_no_network_call envNoId V3.St.init V2.St.init
    (.obj [("name", .str "nameless")]) rfl rfl

/-- C4: when the tool does not exist remotely (GET returned 404) and the
validation request is answered, both variants issue exactly one validation
call, followed by a POST to the tool endpoint exactly when the validation
response was non-error; a failed validation classifies the file as a failure
(in `gh2biotools3.py` carrying the validation message). -/
theorem new_tool_validate_then_post (env : FileEnv) (s3 : V3.St) (s2 : V2.St)
    (raw : Json) (tid : String) (resp vr : HttpResponse)
    (hl : env.localJson = .ok raw)
    (hid : toolId? (stripTerm raw) = some tid)
    (hg : env.getResp = .ok resp) (h404 : resp.status = 404)
    (hv : env.valResp = .ok vr) :
    (V3.step env s3).1 = [⟨.GET, HOST ++ "/api/tool/" ++ tid ++ "/"⟩,
        ⟨.POST, VALIDATE_API_URL⟩] ++
      (if vr.isOk then [⟨.POST, TOOL_API_URL⟩] else []) ∧
    (V2.step env s2).1 = [⟨.GET, HOST ++ "/api/tool/" ++ tid ++ "/"⟩,
        ⟨.POST, VALIDATE_API_URL⟩] ++
      (if vr.isOk then [⟨.POST, TOOL_API_URL⟩] else []) ∧
    (vr.isOk = false →
      V3.step env s3 = ([⟨.GET, HOST ++ "/api/tool/" ++ tid ++ "/"⟩,
          ⟨.POST, VALIDATE_API_URL⟩],
        .done ⟨s3.ok, s3.ko ++ [(.str tid, vr.text)], s3.unchanged,
               some (stripTerm raw), some resp⟩) ∧
      V2.step env s2 = ([⟨.GET, HOST ++ "/api/tool/" ++ tid ++ "/"⟩,
          ⟨.POST, VALIDATE_API_URL⟩],
        .done ⟨s2.ok, s2.ko ++ [.str tid], s2.unchanged,
               some (stripTerm raw), some resp⟩)) := by
  have hs : (resp.status == 200) = false := by simp [h404]
  have hs4 : (resp.status == 404) = true := by simp [h404]
  refine ⟨?_, ?_, ?_⟩
  · cases hok : vr.isOk
    · simp [V3.step, hl, hid, hg, hs, hs4, hv, hok, V3.validate_tool]
    · rcases hpost : env.postResp with e | r
      · cases e <;>
          simp [V3.step, hl, hid, hg, hs, hs4, hv, hok, hpost,
            V3.validate_tool, V3.upload_tool]
      · simp [V3.step, hl, hid, hg, hs, hs4, hv, hok, hpost,
          V3.validate_tool, V3.upload_tool]
  · cases hok : vr.isOk
    · simp [V2.step, hl, hid, hg, hs, hs4, hv, hok, V2.validate_upload_tool]
    · rcases hpost : env.postResp with e | r
      · cases e <;>
          simp [V2.step, hl, hid, hg, hs, hs4, hv, hok, hpost,
            V2.validate_upload_tool, V2.upload_tool]
      · simp [V2.step, hl, hid, hg, hs, hs4, hv, hok, hpost,
          V2.validate_upload_tool, V2.upload_tool]
  · intro hok
    constructor
    · simp [V3.step, hl, hid, hg, hs, hs4, hv, hok, V3.validate_tool]
    · simp [V2.step, hl, hid, hg, hs, hs4, hv, hok, V2.validate_upload_tool]

/-- Witness for C4: a new tool whose creation fails validation — the trace
stops at the validation call and the file is a failure carrying the
validation message. -/
theorem new_tool_validate_then_post_witness :
    V3.step envNewInvalid V3.St.init =
      ([⟨.GET, HOST ++ "/api/tool/" ++ "toolA" ++ "/"⟩,
        ⟨.POST, VALIDATE_API_URL⟩],
       .done ⟨[], [] ++ [(.str "toolA", "schema violation")], [],
              some (stripTerm recA), some ⟨404, "not found"⟩⟩) :=
  ((new_tool_validate_then_post envNewInvalid V3.St.init V2.St.init recA
      "toolA" ⟨404, "not found"⟩ ⟨400, "schema violation"⟩
      rfl rfl rfl rfl rfl).2.2 rfl).1

/-- C2 evaluation at the failing input: a changed record (GET 200, stripped
records unequal) whose PUT is answered with status 400.  Exactly one PUT is
issued, but `gh2biotools3.py` classifies the file as a success anyway:
`update_tool` returns `(True, response.text)` for every received response —
`requests.put` never raises `HTTPError` on its own, so the error branch is
dead code — contradicting "success iff the PUT returns a non-error status". -/
theorem changed_record_put400_counted_success :
    V3.step envChangedPut400 V3.St.init =
      ([⟨.GET, HOST ++ "/api/tool/" ++ "toolA" ++ "/"⟩,
        ⟨.PUT, TOOL_API_URL ++ "toolA" ++ "/"⟩],
       .done ⟨["toolA"], [], [], some (stripTerm recA), some ⟨200, "body"⟩⟩) ∧
    (HttpResponse.mk 400 "bad request").isOk = false := by
  exact ⟨rfl, rfl⟩

/-- C5 evaluation at the failing input: when the very first file's
`json.load` raises and no `payload_dict` was ever bound, the `except`
handler of both variants evaluates the unbound name `payload_dict`, raising
`NameError`, which escapes the handler and aborts the whole run — no
`UNKNOWN` failure entry is appended and no further file is processed. -/
theorem malformed_first_file_aborts_run :
    V3.run_upload [envBadJson, envUnchanged] V3.St.init =
      ([], .abort (.nameError "payload_dict")) ∧
    V2.loop [envBadJson, envUnchanged] V2.St.init =
      ([], .abort (.nameError "payload_dict")) := by
  exact ⟨rfl, rfl⟩

/-- C6 evaluation: `tools_ko` is a local of `run_upload`, so the module-level
`if tools_ko:` of `gh2biotools3.py` raises `NameError` on every invocation:
the failure report is never written (first conjunct, all runs), and even an
all-success run (one unchanged file, no deletions) ends with an uncaught
`NameError` — a non-zero exit — instead of exit code 0. -/
theorem report_line_unreachable_in_main3 :
    (∀ files deletes, (V3.main files deletes).reportWritten = false) ∧
    V3.main [envUnchanged] [] = ⟨.uncaught (.nameError "tools_ko"), false⟩ ∧
    (ExitOutcome.uncaught (.nameError "tools_ko")).isNonzero = true := by
  refine ⟨?_, rfl, rfl⟩
  intro files deletes
  rcases hru : V3.run_upload files V3.St.init with ⟨cs, lr⟩
  rcases hrd : runDeletes deletes with e | logs <;>
    cases lr <;> by_cases hf : files.isEmpty <;>
      simp [V3.main, hru, hrd, hf]

/-- C7: `delete_tool` issues exactly one DELETE request to the tool URL, and
classifies a received response by status: 204 is logged as success, 404 as
the already-gone warning (a distinct log level, recorded nowhere as a
failure), anything else as an error log.  The function returns only this log
and touches no result list. -/
theorem delete_tool_single_delete_and_logs (tid : String) (r : HttpResponse) :
    (delete_tool tid (.ok r)).1 = [⟨.DELETE, TOOL_API_URL ++ tid ++ "/"⟩] ∧
    (r.status = 204 → (delete_tool tid (.ok r)).2 = .ok .deletedOk) ∧
    (r.status = 404 → (delete_tool tid (.ok r)).2 = .ok .notFoundWarning) ∧
    (r.status ≠ 204 → r.status ≠ 404 →
      (delete_tool tid (.ok r)).2 = .ok .failedError) := by
  refine ⟨rfl, ?_, ?_, ?_⟩
  · intro h; simp [delete_tool, h]
  · intro h; simp [delete_tool, h]
  · intro h1 h2; simp [delete_tool, h1, h2]

/-- Witness for C7: a DELETE answered 404 produces the warning log. -/
theorem delete_tool_single_delete_and_logs_witness :
    (delete_tool "gone" (.ok ⟨404, "not found"⟩)).1 =
      [⟨.DELETE, TOOL_API_URL ++ "gone" ++ "/"⟩] ∧
    (delete_tool "gone" (.ok ⟨404, "not found"⟩)).2 = .ok .notFoundWarning :=
  have h := delete_tool_single_delete_and_logs "gone" ⟨404, "not found"⟩
  ⟨h.1, h.2.2.1 rfl⟩

/-- A deletion list whose entries all received responses never raises. -/
theorem runDeletes_all_responses_ok
    (ds : List (String × Except Exn HttpResponse))
    (h : ∀ d ∈ ds, ∃ r, d.2 = Except.ok r) :
    ∃ logs, runDeletes ds = .ok logs := by
  induction ds with
  | nil => exact ⟨[], rfl⟩
  | cons d t ih =>
    obtain ⟨p, resp⟩ := d
    obtain ⟨r, hr⟩ := h (p, resp) (List.mem_cons_self _ t)
    obtain ⟨logs, hl⟩ := ih (fun x hx => h x (List.mem_cons_of_mem _ hx))
    simp only at hr
    refine ⟨(if r.status == 204 then DeleteLog.deletedOk
      else if r.status == 404 then DeleteLog.notFoundWarning
      else DeleteLog.failedError) :: logs, ?_⟩
    simp [runDeletes, delete_tool, hr, hl]

/-- The exit status of `gh2biotools2.py` as a function of `run_upload`. -/
theorem run_upload2_exited_iff (files : List FileEnv) (cs : List Call)
    (out : V2.UploadOutcome) (h : V2.run_upload files = (cs, .done out)) :
    out.exited = !out.finalState.ko.isEmpty := by
  unfold V2.run_upload at h
  rcases hl : V2.loop files V2.St.init with ⟨c, lr⟩
  rw [hl] at h
  cases lr with
  | abort e => cases h
  | done s =>
    obtain ⟨-, h2⟩ := Prod.mk.injEq _ _ _ _ ▸ h
    cases h2
    rfl

/-- C10: deletion outcomes are invisible in the run's observable result.
For deletion lists whose DELETEs all received responses (of any status,
including non-204/non-404 failures), `gh2biotools2.py`'s process result —
exit outcome and the result lists it reports — is the same for any two such
lists, and the exit code is non-zero exactly when `run_upload`'s failure
bucket is non-empty; deletions neither add failure entries nor change the
exit code. -/
theorem delete_outcomes_no_effect (files : List FileEnv)
    (ds ds' : List (String × Except Exn HttpResponse))
    (hok : ∀ d ∈ ds, ∃ r, d.2 = Except.ok r)
    (hok' : ∀ d ∈ ds', ∃ r, d.2 = Except.ok r) :
    V2.main files ds = V2.main files ds' ∧
    (∀ cs out, V2.run_upload files = (cs, .done out) →
      (V2.main files ds).2 =
        (if files.isEmpty then none else some out.finalState) ∧
      ((V2.main files ds).1.isNonzero = true ↔
        (files.isEmpty = false ∧ out.finalState.ko ≠ []))) := by
  obtain ⟨l1, h1⟩ := runDeletes_all_responses_ok ds hok
  obtain ⟨l2, h2⟩ := runDeletes_all_responses_ok ds' hok'
  constructor
  · unfold V2.main
    by_cases hf : files.isEmpty
    · simp [hf, h1, h2]
    · rcases hru : V2.run_upload files with ⟨cs, lr⟩
      cases lr with
      | abort e => simp [hf, hru]
      | done out =>
        by_cases he : out.exited <;> simp [hf, hru, he, h1, h2]
  · intro cs out hru
    have hex := run_upload2_exited_iff files cs out hru
    by_cases hf : files.isEmpty
    · have hfe : files = [] := List.isEmpty_iff.mp hf
      subst hfe
      have hout : out = ⟨V2.St.init, false⟩ := by
        have heq : V2.run_upload [] = ([], .done ⟨V2.St.init, false⟩) := rfl
        rw [heq] at hru
        exact ((Prod.mk.injEq _ _ _ _ ▸ hru).2 |> LoopResult.done.inj).symm
      subst hout
      simp [V2.main, h1, ExitOutcome.isNonzero]
    · have hf' : files.isEmpty = false := by simpa using hf
      have hmain : V2.main files ds =
          (if out.exited then ((.code 1 : ExitOutcome), some out.finalState)
           else ((.code 0 : ExitOutcome), some out.finalState)) := by
        unfold V2.main
        rw [hf', hru]
        cases he : out.exited <;> simp [h1, he]
      cases he : out.exited with
      | true =>
        rw [he, if_pos rfl] at hmain
        rw [hmain]
        have hko : out.finalState.ko ≠ [] := by
          rw [he] at hex
          intro hk
          rw [hk] at hex
          simp at hex
        simp [ExitOutcome.isNonzero, hf', hko]
      | false =>
        rw [he] at hmain
        simp only [Bool.false_eq_true, if_false] at hmain
        rw [hmain]
        have hko : out.finalState.ko = [] := by
          rw [he] at hex
          symm at hex
          simp only [Bool.not_eq_false'] at hex
          simpa using hex
        simp [ExitOutcome.isNonzero, hf', hko]

/-- Witness for C10: one unchanged file, against two deletion lists — one
whose DELETE fails with a 500 — give identical results and exit zero. -/
theorem delete_outcomes_no_effect_witness :
    V2.main [envUnchanged] [("a/toolB.biotools.json", .ok ⟨204, ""⟩)] =
      V2.main [envUnchanged] [("a/toolB.biotools.json", .ok ⟨500, "boom"⟩)] :=
  (delete_outcomes_no_effect [envUnchanged]
    [("a/toolB.biotools.json", .ok ⟨204, ""⟩)]
    [("a/toolB.biotools.json", .ok ⟨500, "boom"⟩)]
    (by intro d hd; simp at hd; exact ⟨⟨204, ""⟩, by rw [hd]⟩)
    (by intro d hd; simp at hd; exact ⟨⟨500, "boom"⟩, by rw [hd]⟩)).1

/-- When a `gh2biotools3.py` handler completes (rather than aborting), the
only change it makes is appending one entry to the failure list. -/
theorem handle3_done_spec (env : FileEnv) (s : V3.St) (e : Exn) (r : V3.St)
    (h : V3.handle env s e = .done r) :
    r.ok = s.ok ∧ r.unchanged = s.unchanged ∧ ∃ x, r.ko = s.ko ++ [x] := by
  unfold V3.handle at h
  repeat' split at h
  all_goals try cases h
  all_goals exact ⟨rfl, rfl, ⟨_, rfl⟩⟩

/-- When a `gh2biotools2.py` handler completes (rather than aborting), the
only change it makes is appending one entry to the failure list. -/
theorem handle2_done_spec (s : V2.St) (e : Exn) (r : V2.St)
    (h : V2.handle s e = .done r) :
    r.ok = s.ok ∧ r.unchanged = s.unchanged ∧ ∃ x, r.ko = s.ko ++ [x] := by
  unfold V2.handle at h
  repeat' split at h
  all_goals try cases h
  all_goals exact ⟨rfl, rfl, ⟨_, rfl⟩⟩

/-- C9: in both variants, every loop iteration that completes without an
uncaught exception appends exactly one entry to exactly one of the three
result lists — no completed file is double-counted or left uncounted. -/
theorem completed_iteration_fills_one_bucket (env : FileEnv) (s3 : V3.St)
    (s2 : V2.St) :
    (∀ tr s3', V3.step env s3 = (tr, .done s3') →
      (∃ x, s3'.ok = s3.ok ++ [x] ∧ s3'.ko = s3.ko ∧
        s3'.unchanged = s3.unchanged) ∨
      (∃ y, s3'.ko = s3.ko ++ [y] ∧ s3'.ok = s3.ok ∧
        s3'.unchanged = s3.unchanged) ∨
      (∃ z, s3'.unchanged = s3.unchanged ++ [z] ∧ s3'.ok = s3.ok ∧
        s3'.ko = s3.ko)) ∧
    (∀ tr s2', V2.step env s2 = (tr, .done s2') →
      (∃ x, s2'.ok = s2.ok ++ [x] ∧ s2'.ko = s2.ko ∧
        s2'.unchanged = s2.unchanged) ∨
      (∃ y, s2'.ko = s2.ko ++ [y] ∧ s2'.ok = s2.ok ∧
        s2'.unchanged = s2.unchanged) ∨
      (∃ z, s2'.unchanged = s2.unchanged ++ [z] ∧ s2'.ok = s2.ok ∧
        s2'.ko = s2.ko)) := by
  constructor
  · intro tr s' h
    unfold V3.step at h
    repeat' (first | split at h | dsimp only [] at h)
    all_goals injection h with h1 h2
    all_goals
      first
        | (cases h2;
           first
             | exact Or.inl ⟨_, rfl, rfl, rfl⟩
             | exact Or.inr (Or.inl ⟨_, rfl, rfl, rfl⟩)
             | exact Or.inr (Or.inr ⟨_, rfl, rfl, rfl⟩))
        | (rcases handle3_done_spec _ _ _ _ h2 with ⟨ho, hu, x, hk⟩;
           exact Or.inr (Or.inl ⟨x, hk, ho, hu⟩))
  · intro tr s' h
    unfold V2.step at h
    repeat' (first | split at h | dsimp only [] at h)
    all_goals injection h with h1 h2
    all_goals
      first
        | (cases h2;
           first
             | exact Or.inl ⟨_, rfl, rfl, rfl⟩
             | exact Or.inr (Or.inl ⟨_, rfl, rfl, rfl⟩)
             | exact Or.inr (Or.inr ⟨_, rfl, rfl, rfl⟩))
        | (rcases handle2_done_spec _ _ _ h2 with ⟨ho, hu, x, hk⟩;
           exact Or.inr (Or.inl ⟨x, hk, ho, hu⟩))

/-- Witness for C9: the unchanged-file iteration lands exactly one entry, in
the unchanged bucket. -/
theorem completed_iteration_fills_one_bucket_witness :
    (∃ x, (V3.St.mk [] [] ([] ++ ["toolA"]) (some (stripTerm recA))
        (some ⟨200, "body"⟩)).ok = ([] : List String) ++ [x] ∧
      (V3.St.mk [] [] ([] ++ ["toolA"]) (some (stripTerm recA))
        (some ⟨200, "body"⟩)).ko = ([] : List (Json × String)) ∧
      (V3.St.mk [] [] ([] ++ ["toolA"]) (some (stripTerm recA))
        (some ⟨200, "body"⟩)).unchanged = ([] : List String)) ∨
    (∃ y, (V3.St.mk [] [] ([] ++ ["toolA"]) (some (stripTerm recA))
        (some ⟨200, "body"⟩)).ko = ([] : List (Json × String)) ++ [y] ∧
      (V3.St.mk [] [] ([] ++ ["toolA"]) (some (stripTerm recA))
        (some ⟨200, "body"⟩)).ok = ([] : List String) ∧
      (V3.St.mk [] [] ([] ++ ["toolA"]) (some (stripTerm recA))
        (some ⟨200, "body"⟩)).unchanged = ([] : List String)) ∨
    (∃ z, (V3.St.mk [] [] ([] ++ ["toolA"]) (some (stripTerm recA))
        (some ⟨200, "body"⟩)).unchanged = ([] : List String) ++ [z] ∧
      (V3.St.mk [] [] ([] ++ ["toolA"]) (some (stripTerm recA))
        (some ⟨200, "body"⟩)).ok = ([] : List String) ∧
      (V3.St.mk [] [] ([] ++ ["toolA"]) (some (stripTerm recA))
        (some ⟨200, "body"⟩)).ko = ([] : List (Json × String))) :=
  (completed_iteration_fills_one_bucket envUnchanged V3.St.init V2.St.init).1
    [⟨.GET, HOST ++ "/api/tool/" ++ "toolA" ++ "/"⟩]
    (V3.St.mk [] [] ([] ++ ["toolA"]) (some (stripTerm recA))
      (some ⟨200, "body"⟩)) rfl

/-- Witness for C8: the spec's two-tool scenario, starting from a tree where
`toolA`'s path already holds a stale document. -/
theorem importer_writes_every_entry_witness :
    (Importer.import_biocontainers_annots annotsEx "out" fsStale).read
        (Importer.annotPath "out" "toolA") = some (.obj [("name", .str "A")]) ∧
    ["out", "toolA"] ∈
      (Importer.import_biocontainers_annots annotsEx "out" fsStale).dirs :=
  importer_writes_every_entry annotsEx "out" fsStale "toolA"
    (.obj [("name", .str "A")]) (by simp [annotsEx]) (by simp [annotsEx])

end BioTools
